import Mathlib

/-!
Shallow embedding of the animation and hit-testing logic of the
`bevy_blog_code` examples (`jiggle`, `donut_animation`, `split_screen`).
`f32` scalars are modelled exactly over `ℚ`; the host engine's `sin`
and the constant `π` enter every curve evaluation only through explicit
parameters `sinq : ℚ → ℚ` and `piq : ℚ`, so every statement that does not
depend on particular sine values is proved for all such parameters.
-/

namespace BlogSpec

/-- 3D vector with rational coordinates, modelling `bevy`'s `Vec3`. -/
structure Vec3q where
  x : ℚ
  y : ℚ
  z : ℚ
deriving DecidableEq

/-- Componentwise vector addition (`Vec3 + Vec3`). -/
def Vec3q.add (a b : Vec3q) : Vec3q := ⟨a.x + b.x, a.y + b.y, a.z + b.z⟩

/-- Componentwise vector subtraction (`Vec3 - Vec3`). -/
def Vec3q.sub (a b : Vec3q) : Vec3q := ⟨a.x - b.x, a.y - b.y, a.z - b.z⟩

instance : Add Vec3q := ⟨Vec3q.add⟩

instance : Sub Vec3q := ⟨Vec3q.sub⟩

/-- Componentwise scaling (`Vec3 * f32`). -/
def Vec3q.scale (a : Vec3q) (s : ℚ) : Vec3q := ⟨a.x * s, a.y * s, a.z * s⟩

/-- `Vec3::dot`. -/
def Vec3q.dot (a b : Vec3q) : ℚ := a.x * b.x + a.y * b.y + a.z * b.z

/-- `Vec3::length_squared`. -/
def Vec3q.lengthSq (a : Vec3q) : ℚ := Vec3q.dot a a

/-- `Vec3::lerp(self, rhs, s) = self + (rhs - self) * s`. -/
def Vec3q.lerp (a b : Vec3q) (s : ℚ) : Vec3q := a + (b - a).scale s

/-- Rust `f32::clamp(self, lo, hi)`:
`if self < lo { lo } else if self > hi { hi } else { self }`. -/
def rclamp (v lo hi : ℚ) : ℚ := if v < lo then lo else if v > hi then hi else v

@[simp]
lemma Vec3q.add_mk (a b c d e f : ℚ) :
    (⟨a, b, c⟩ + ⟨d, e, f⟩ : Vec3q) = ⟨a + d, b + e, c + f⟩ := rfl

@[simp]
lemma Vec3q.sub_mk (a b c d e f : ℚ) :
    (⟨a, b, c⟩ - ⟨d, e, f⟩ : Vec3q) = ⟨a - d, b - e, c - f⟩ := rfl

@[simp]
lemma Vec3q.scale_mk (a b c s : ℚ) :
    Vec3q.scale ⟨a, b, c⟩ s = ⟨a * s, b * s, c * s⟩ := rfl

@[simp]
lemma Vec3q.dot_mk (a b c d e f : ℚ) :
    Vec3q.dot ⟨a, b, c⟩ ⟨d, e, f⟩ = a * d + b * e + c * f := rfl

@[simp]
lemma Vec3q.lengthSq_mk (a b c : ℚ) :
    Vec3q.lengthSq ⟨a, b, c⟩ = a * a + b * b + c * c := rfl

/-- A camera ray (`Ray3d` after `viewport_to_world`): origin plus a
direction vector (the engine guarantees the direction is normalized;
none of the embedded code renormalizes it). -/
structure Rayq where
  origin : Vec3q
  dir : Vec3q
deriving DecidableEq

/-- The closest-approach ray/sphere test shared by
`jiggle_on_click` (jiggle/src/main.rs lines 236-241) and the click half of
`donut_flip` (donut_animation/src/main.rs lines 216-222):
`oc = center - origin; tca = oc.dot(dir); d2 = oc.length_squared() - tca*tca;
hit iff d2 <= radius*radius`. -/
def sphereHit (ray : Rayq) (center : Vec3q) (radius : ℚ) : Bool :=
  let origin_to_center := center - ray.origin
  let tca := Vec3q.dot origin_to_center ray.dir
  let d2 := Vec3q.lengthSq origin_to_center - tca * tca
  decide (d2 ≤ radius * radius)

/-- The primary window, reduced to the only field the click handlers read:
`Window::cursor_position()`, which may be absent. -/
structure WindowQ where
  cursorPos : Option (ℚ × ℚ)

/-- The camera, reduced to the only operation the click handlers invoke:
`Camera::viewport_to_world(camera_transform, cursor_pos)`, which may fail. -/
structure CameraQ where
  viewportToWorld : ℚ × ℚ → Option Rayq

/-- Per-frame click environment: `ButtonInput<MouseButton>::just_pressed`,
the primary-window query result and the camera query result (each of which
may fail to resolve). -/
structure ClickEnv where
  justPressed : Bool
  window : Option WindowQ
  camera : Option CameraQ

/-- The window→cursor→camera→ray resolution prologue shared verbatim by
`jiggle_on_click` (lines 230-233) and `donut_flip` (lines 210-213):
yields the click ray, or nothing when any of the four lookups fails. -/
def ClickEnv.clickRay (env : ClickEnv) : Option Rayq :=
  match env.window with
  | none => none
  | some w =>
    match w.cursorPos with
    | none => none
    | some cur =>
      match env.camera with
      | none => none
      | some cam => cam.viewportToWorld cur

/-- `active`/`timer` pair used by both `JiggleAnimation` and `PlateSlide`. -/
structure AnimState where
  active : Bool
  timer : ℚ
deriving DecidableEq

/-- A `SphereTag` entity as seen by `jiggle_on_click`: its
`GlobalTransform` translation and its `JiggleAnimation` component. -/
structure SphereEnt where
  center : Vec3q
  jiggle : AnimState
deriving DecidableEq

/-- `jiggle_on_click` (jiggle/src/main.rs lines 223-249): on a left click,
resolve the ray and unconditionally restart the jiggle of every sphere the
closest-approach test (radius 0.5) reports as hit. -/
def jiggleOnClick (env : ClickEnv) (spheres : List SphereEnt) : List SphereEnt :=
  if env.justPressed then
    match env.clickRay with
    | none => spheres
    | some ray =>
      spheres.map fun s =>
        if sphereHit ray s.center (1/2) then
          { s with jiggle := { active := true, timer := 0 } }
        else s
  else spheres

/-- Claim C1: the picker registers a hit exactly when
`d2 = |center - origin|^2 - (oc ⬝ dir)^2` satisfies `d2 ≤ radius^2`, and —
since no `tca ≥ 0` check is performed — some click whose target center lies
behind the ray origin (unit direction, `tca < 0`) but within `radius` of the
ray's infinite line still registers a hit and activates the jiggle. -/
theorem C1_picker_closest_approach :
    (∀ (ray : Rayq) (center : Vec3q) (radius : ℚ),
        sphereHit ray center radius = true ↔
          Vec3q.lengthSq (center - ray.origin) -
              Vec3q.dot (center - ray.origin) ray.dir ^ 2 ≤ radius ^ 2) ∧
    (∃ (env : ClickEnv) (ray : Rayq) (center : Vec3q) (a : AnimState),
        env.justPressed = true ∧ env.clickRay = some ray ∧
        Vec3q.lengthSq ray.dir = 1 ∧
        Vec3q.dot (center - ray.origin) ray.dir < 0 ∧
        Vec3q.lengthSq (center - ray.origin) -
            Vec3q.dot (center - ray.origin) ray.dir ^ 2 ≤ (1/2) ^ 2 ∧
        jiggleOnClick env [{ center := center, jiggle := a }] =
          [{ center := center, jiggle := { active := true, timer := 0 } }]) := by
  constructor
  · intro ray center radius
    simp [sphereHit, pow_two]
  · refine ⟨⟨true, some ⟨some (0, 0)⟩, some ⟨fun _ => some ⟨⟨0,0,0⟩, ⟨0,0,1⟩⟩⟩⟩,
      ⟨⟨0,0,0⟩, ⟨0,0,1⟩⟩, ⟨0,0,-5⟩, ⟨false, 7⟩, rfl, rfl, by norm_num,
      by norm_num, by norm_num, ?_⟩
    simp [jiggleOnClick, ClickEnv.clickRay, sphereHit]

/-- `JIGGLE_DURATION` (jiggle/src/main.rs line 41): 1.5 seconds. -/
def JIGGLE_DURATION : ℚ := 3/2

/-- The per-entity state touched by `jiggle_sphere`: the `JiggleAnimation`
component (`active`, `timer`) and the transform's vertical translation. -/
structure JiggleState where
  active : Bool
  timer : ℚ
  y : ℚ
deriving DecidableEq

/-- One frame of `jiggle_sphere` (jiggle/src/main.rs lines 189-221) for one
sphere: an optional B-press restart, then — while active — advance the
timer, write the decayed sine offset, and deactivate (zeroing the offset,
but not the timer) once the timer reaches `JIGGLE_DURATION`; while
inactive, hold the offset at the rest value 0. -/
def jiggleSphereStep (sinq : ℚ → ℚ) (pressB : Bool) (dt : ℚ)
    (s0 : JiggleState) : JiggleState :=
  let s := if pressB then { s0 with active := true, timer := 0 } else s0
  if s.active then
    let timer := s.timer + dt
    let decay := max ((JIGGLE_DURATION - timer) / JIGGLE_DURATION) 0
    let amplitude := 1 * decay * decay
    let offset := sinq (timer * 16) * amplitude
    if timer ≥ JIGGLE_DURATION then { active := false, timer := timer, y := 0 }
    else { active := true, timer := timer, y := offset }
  else { s with y := 0 }

/-- A sequence of `jiggle_sphere` frames with no B-press, one per element of
`dts` (each element one frame's `delta_secs`). -/
def jiggleRun (sinq : ℚ → ℚ) (dts : List ℚ) (s : JiggleState) : JiggleState :=
  dts.foldl (fun st d => jiggleSphereStep sinq false d st) s

lemma jiggleRun_inactive (sinq : ℚ → ℚ) (dts : List ℚ) (t : ℚ) :
    jiggleRun sinq dts { active := false, timer := t, y := 0 } =
      { active := false, timer := t, y := 0 } := by
  induction dts with
  | nil => rfl
  | cons d rest ih =>
    simpa [jiggleRun, jiggleSphereStep] using ih

lemma jiggleRun_active_complete (sinq : ℚ → ℚ) :
    ∀ (dts : List ℚ) (c y : ℚ), (∀ d ∈ dts, 0 ≤ d) → 0 ≤ c →
      c < JIGGLE_DURATION → c + dts.sum = JIGGLE_DURATION →
      jiggleRun sinq dts { active := true, timer := c, y := y } =
        { active := false, timer := JIGGLE_DURATION, y := 0 } := by
  intro dts
  induction dts with
  | nil =>
    intro c y _ _ hlt hsum
    simp only [List.sum_nil, add_zero] at hsum
    exact absurd hsum (ne_of_lt hlt)
  | cons d rest ih =>
    intro c y hnn h0 hlt hsum
    have hd : 0 ≤ d := hnn d (by simp)
    have hrest : ∀ x ∈ rest, 0 ≤ x := fun x hx => hnn x (by simp [hx])
    have hsr : 0 ≤ rest.sum := List.sum_nonneg hrest
    simp only [List.sum_cons] at hsum
    simp only [jiggleRun, List.foldl_cons]
    by_cases hge : JIGGLE_DURATION ≤ c + d
    · have heq : c + d = JIGGLE_DURATION := le_antisymm (by linarith) hge
      have hstep : jiggleSphereStep sinq false d { active := true, timer := c, y := y } =
          { active := false, timer := JIGGLE_DURATION, y := 0 } := by
        simp only [jiggleSphereStep, if_neg (Bool.false_ne_true), if_pos rfl]
        rw [if_pos (le_of_eq heq.symm), heq]
        simp
      rw [hstep]
      exact jiggleRun_inactive sinq rest JIGGLE_DURATION
    · push_neg at hge
      have hstep : jiggleSphereStep sinq false d { active := true, timer := c, y := y } =
          { active := true, timer := c + d,
            y := sinq ((c + d) * 16) *
              (1 * max ((JIGGLE_DURATION - (c + d)) / JIGGLE_DURATION) 0 *
                max ((JIGGLE_DURATION - (c + d)) / JIGGLE_DURATION) 0) } := by
        simp only [jiggleSphereStep, if_neg (Bool.false_ne_true), if_pos rfl]
        rw [if_neg (not_le.mpr hge)]
        simp
      rw [hstep]
      exact ih (c + d) _ hrest (by linarith) hge (by linarith)

/-- Counterexample to claim C2 as stated: activating the jiggle and then
advancing by a single frame of exactly `JIGGLE_DURATION` deactivates it and
returns the offset to 0, but leaves `timer = JIGGLE_DURATION`, not 0 —
`jiggle_sphere` never resets the timer on completion. -/
theorem C2_counterexample :
    ¬ ((jiggleRun (fun _ => 0) [JIGGLE_DURATION]
          { active := true, timer := 0, y := 0 }).active = false ∧
       (jiggleRun (fun _ => 0) [JIGGLE_DURATION]
          { active := true, timer := 0, y := 0 }).timer = 0 ∧
       (jiggleRun (fun _ => 0) [JIGGLE_DURATION]
          { active := true, timer := 0, y := 0 }).y = 0) := by
  have h : jiggleRun (fun _ => 0) [JIGGLE_DURATION]
      { active := true, timer := 0, y := 0 } =
      { active := false, timer := JIGGLE_DURATION, y := 0 } := by
    simp [jiggleRun, jiggleSphereStep]
  rw [h]
  intro hcl
  have := hcl.2.1
  norm_num [JIGGLE_DURATION] at this

/-- Claim C2, amended: after an activation (`active = true`, `timer = 0`),
advancing by nonnegative deltas that sum to exactly `JIGGLE_DURATION` leaves
`active = false` and the vertical offset at the rest value 0, with the timer
left equal to `JIGGLE_DURATION` (the code resets the timer only on
activation, never on completion). -/
theorem C2_jiggle_completes (sinq : ℚ → ℚ) (dts : List ℚ)
    (hnn : ∀ d ∈ dts, 0 ≤ d) (hsum : dts.sum = JIGGLE_DURATION) :
    jiggleRun sinq dts { active := true, timer := 0, y := 0 } =
      { active := false, timer := JIGGLE_DURATION, y := 0 } :=
  jiggleRun_active_complete sinq dts 0 0 hnn le_rfl
    (by norm_num [JIGGLE_DURATION]) (by simpa using hsum)

/-- Witness for `C2_jiggle_completes`: three frames of 0.5 s each. -/
theorem C2_jiggle_completes_witness :
    (∀ d ∈ [(1/2 : ℚ), 1/2, 1/2], 0 ≤ d) ∧
    ([(1/2 : ℚ), 1/2, 1/2].sum = JIGGLE_DURATION) ∧
    jiggleRun (fun _ => 0) [(1/2 : ℚ), 1/2, 1/2]
        { active := true, timer := 0, y := 0 } =
      { active := false, timer := JIGGLE_DURATION, y := 0 } :=
  ⟨by norm_num, by norm_num [JIGGLE_DURATION],
    C2_jiggle_completes (fun _ => 0) _ (by norm_num)
      (by norm_num [JIGGLE_DURATION])⟩

/-- The rotation value written by `donut_flip`: either
`Quat::from_rotation_x(angle)` or the constant `Quat::IDENTITY`. -/
inductive QuatQ where
  | fromRotX (angle : ℚ)
  | ident
deriving DecidableEq

/-- The `DonutRoot` entity as seen by `donut_flip`: its `GlobalTransform`
translation (the hit-test center), the transform fields the flip writes
(vertical translation and rotation) and its `JiggleAnimation` component. -/
structure DonutEnt where
  center : Vec3q
  y : ℚ
  rot : QuatQ
  anim : AnimState
deriving DecidableEq

/-- A plate entity: its transform translation and `PlateSlide` component. -/
structure PlateEnt where
  translation : Vec3q
  slide : AnimState
deriving DecidableEq

/-- The entities of the `donut_animation` example that `donut_flip` and
`plate_slide_animation` query: the one `DonutRoot` and the plates. -/
structure DFWorld where
  donut : DonutEnt
  plates : List PlateEnt
deriving DecidableEq

/-- The click half of `donut_flip` (donut_animation/src/main.rs lines
209-235): on a left click, resolve the ray; if the closest-approach test
(radius 1.0) hits the donut and its flip is not already active, activate
the flip and every plate's slide (all with `timer = 0`). -/
def donutFlipClick (env : ClickEnv) (w : DFWorld) : DFWorld :=
  if env.justPressed then
    match env.clickRay with
    | none => w
    | some ray =>
      if sphereHit ray w.donut.center 1 && !w.donut.anim.active then
        { w with
          donut := { w.donut with anim := { active := true, timer := 0 } },
          plates := w.plates.map fun p =>
            { p with slide := { active := true, timer := 0 } } }
      else w
  else w

/-- `flip_duration` (donut_animation/src/main.rs line 238): 1.2. -/
def flip_duration : ℚ := 6/5

/-- `jump_height` (line 239): 3.0. -/
def jump_height : ℚ := 3

/-- `hover_time` (line 240): 0.25. -/
def hover_time : ℚ := 1/4

/-- `up_time = (flip_duration - hover_time) / 2.0` (line 247). -/
def up_time : ℚ := (flip_duration - hover_time) / 2

/-- `down_time = up_time` (line 248). -/
def down_time : ℚ := up_time

/-- `total_time = up_time + hover_time + down_time` (line 249). -/
def total_time : ℚ := up_time + hover_time + down_time

/-- Rising branch of the flip (line 254):
`1.0 + jump_height * (progress * PI / 2.0).sin()`. -/
def flipRiseY (sinq : ℚ → ℚ) (piq progress : ℚ) : ℚ :=
  1 + jump_height * sinq (progress * piq / 2)

/-- Descending branch of the flip (line 259):
`1.0 + jump_height * (1.0 - (progress * PI / 2.0).sin())`. -/
def flipDescendY (sinq : ℚ → ℚ) (piq progress : ℚ) : ℚ :=
  1 + jump_height * (1 - sinq (progress * piq / 2))

/-- The animation half of `donut_flip` (lines 242-276) for the donut: when
the flip is active, advance the timer and write the piecewise vertical
position (rise, hover, descent, or the rest height 1.2 on completion) and
the rotation (`from_rotation_x(TAU * t / total_time)` while `t <
total_time`, `Quat::IDENTITY` on completion); completion also clears
`active` and resets the timer. `TAU` is embedded as `2 * piq`. -/
def donutFlipAdvance (sinq : ℚ → ℚ) (piq dt : ℚ) (d : DonutEnt) : DonutEnt :=
  if d.anim.active then
    let t := d.anim.timer + dt
    let y : ℚ :=
      if t < up_time then flipRiseY sinq piq (t / up_time)
      else if t < up_time + hover_time then 1 + jump_height
      else if t < total_time then
        flipDescendY sinq piq ((t - up_time - hover_time) / down_time)
      else 6/5
    let anim : AnimState :=
      if t < total_time then { active := true, timer := t }
      else { active := false, timer := 0 }
    let rot : QuatQ :=
      if t < total_time then QuatQ.fromRotX (2 * piq * (t / total_time))
      else QuatQ.ident
    { d with y := y, rot := rot, anim := anim }
  else d

/-- The animation half of `donut_flip` at the world level: it queries only
`DonutRoot` entities, so it writes the donut and leaves the plates alone. -/
def donutFlipAnimPhase (sinq : ℚ → ℚ) (piq dt : ℚ) (w : DFWorld) : DFWorld :=
  { w with donut := donutFlipAdvance sinq piq dt w.donut }

/-- `duration` of the plate slide (donut_animation/src/main.rs line 283). -/
def slide_duration : ℚ := 2

/-- `end = Vec3::new(0.0, 0.95, 0.0)` (line 284). -/
def slide_end : Vec3q := ⟨0, 19/20, 0⟩

/-- One frame of `plate_slide_animation` (lines 279-304) for one plate:
while active, advance the timer, lerp from the plate's current translation
toward `slide_end` with parameter `sin(t * PI)` where
`t = clamp(timer / duration, 0, 1)`, and — once the timer reaches the
duration — deactivate and snap the translation to `slide_end` (the timer is
not reset). -/
def plateSlideStep (sinq : ℚ → ℚ) (piq dt : ℚ) (p : PlateEnt) : PlateEnt :=
  if p.slide.active then
    let timer := p.slide.timer + dt
    let t := rclamp (timer / slide_duration) 0 1
    let progress := sinq (t * piq)
    let start := p.translation
    let moved := Vec3q.lerp start slide_end progress
    if timer ≥ slide_duration then
      { translation := slide_end, slide := { active := false, timer := timer } }
    else
      { translation := moved, slide := { active := true, timer := timer } }
  else p

/-- `plate_slide_animation` at the world level: it queries only `PlateSlide`
entities, so it writes the plates and leaves the donut alone. -/
def plateSlideSystem (sinq : ℚ → ℚ) (piq dt : ℚ) (w : DFWorld) : DFWorld :=
  { w with plates := w.plates.map (plateSlideStep sinq piq dt) }

/-- A sequence of `plate_slide_animation` frames, one per element of `dts`. -/
def plateRun (sinq : ℚ → ℚ) (piq : ℚ) (dts : List ℚ) (p : PlateEnt) : PlateEnt :=
  dts.foldl (fun q d => plateSlideStep sinq piq d q) p

/-- The slide position formula asserted by claim C3, written from the
spec's words for comparison with `plateSlideStep`: linear interpolation
from the position at activation time to the fixed end point, with parameter
`sin(pi * clamp(elapsed / duration, 0, 1))`. -/
def slideSpecPos (sinq : ℚ → ℚ) (piq : ℚ) (activationPos : Vec3q)
    (elapsed : ℚ) : Vec3q :=
  Vec3q.lerp activationPos slide_end
    (sinq (piq * rclamp (elapsed / slide_duration) 0 1))

/-- The per-frame slide step as the amended claim C3 words it, written
independently of `plateSlideStep` for the refinement proof: an inactive
plate is untouched; an active plate advances its timer and either (once the
timer reaches the duration) deactivates with its translation snapped to the
end point, or lerps from its current translation toward the end point with
parameter `sin(pi * clamp(timer / duration, 0, 1))`. -/
def slideSpecStep (sinq : ℚ → ℚ) (piq dt : ℚ) (p : PlateEnt) : PlateEnt :=
  if p.slide.active = false then p
  else
    let timer := p.slide.timer + dt
    if timer ≥ slide_duration then
      { translation := slide_end, slide := { active := false, timer := timer } }
    else
      { translation :=
          Vec3q.lerp p.translation slide_end
            (sinq (piq * rclamp (timer / slide_duration) 0 1)),
        slide := { active := true, timer := timer } }

/-- Donut spawn translation, `Transform::from_xyz(0.0, 0.0, 0.0)`
(donut_animation/src/main.rs line 79). -/
def donutSpawnTranslation : Vec3q := ⟨0, 0, 0⟩

/-- Plate spawn translation, `Transform::from_xyz(-5.0, 0.975, 0.0)`
(donut_animation/src/main.rs line 96). -/
def plateSpawnTranslation : Vec3q := ⟨-5, 39/40, 0⟩

/-- Counterexample to claim C3 as stated: `plate_slide_animation` lerps
from the plate's *current* position each frame, not from its position at
activation time, so two 1-second frames do not land where the claim's
formula `lerp(activation_pos, end, sin(pi * clamp(total/duration, 0, 1)))`
says. The sine model used agrees with the real sine at both arguments the
run evaluates (`sin(pi/2) = 1`, `sin(pi) = 0`, with `pi` stood in by
157/50). -/
theorem C3_counterexample :
    ¬ ((plateRun (fun x => if x = 157/100 then 1 else 0) (157/50) [1, 1]
          { translation := plateSpawnTranslation,
            slide := { active := true, timer := 0 } }).translation =
        slideSpecPos (fun x => if x = 157/100 then 1 else 0) (157/50)
          plateSpawnTranslation ([(1 : ℚ), 1].sum)) := by
  have h1 : plateSlideStep (fun x => if x = 157/100 then 1 else 0) (157/50) 1
      { translation := plateSpawnTranslation,
        slide := { active := true, timer := 0 } } =
      { translation := slide_end, slide := { active := true, timer := 1 } } := by
    norm_num [plateSlideStep, rclamp, slide_duration, slide_end,
      plateSpawnTranslation, Vec3q.lerp]
  have h2 : plateSlideStep (fun x => if x = 157/100 then 1 else 0) (157/50) 1
      { translation := slide_end, slide := { active := true, timer := 1 } } =
      { translation := slide_end, slide := { active := false, timer := 2 } } := by
    norm_num [plateSlideStep, rclamp, slide_duration, slide_end, Vec3q.lerp]
  have hrun : plateRun (fun x => if x = 157/100 then 1 else 0) (157/50) [1, 1]
      { translation := plateSpawnTranslation,
        slide := { active := true, timer := 0 } } =
      { translation := slide_end, slide := { active := false, timer := 2 } } := by
    simp only [plateRun, List.foldl_cons, List.foldl_nil, h1, h2]
  rw [hrun]
  norm_num [slideSpecPos, rclamp, slide_duration, slide_end,
    plateSpawnTranslation, Vec3q.lerp]

/-- Claim C3, amended: each advance of an active slide lerps from the
plate's *current* translation (not its activation-time translation) toward
the fixed end point `(0, 0.95, 0)`, with parameter
`sin(pi * clamp(timer/duration, 0, 1))`, deactivating and snapping exactly
to the end point on the frame where the timer reaches the duration; the
position after a total elapsed time therefore does depend on the
intermediate frame boundaries (two delta sequences with equal sums can end
at different positions). -/
theorem C3_slide_per_frame :
    (∀ (sinq : ℚ → ℚ) (piq dt : ℚ) (p : PlateEnt),
        plateSlideStep sinq piq dt p = slideSpecStep sinq piq dt p) ∧
    (∃ (sinq : ℚ → ℚ) (piq : ℚ) (p : PlateEnt) (dts1 dts2 : List ℚ),
        dts1.sum = dts2.sum ∧
        plateRun sinq piq dts1 p ≠ plateRun sinq piq dts2 p) := by
  constructor
  · intro sinq piq dt p
    by_cases h : p.slide.active
    · simp only [plateSlideStep, slideSpecStep, h, if_pos, Bool.true_eq_false,
        if_neg (by simp [h] : ¬ (p.slide.active = false))]
      rw [mul_comm]
      simp
    · simp [plateSlideStep, slideSpecStep, h, Bool.not_eq_true]
  · refine ⟨fun x => if x = 157/200 then 7/10 else if x = 157/100 then 1 else 0,
      157/50,
      { translation := plateSpawnTranslation,
        slide := { active := true, timer := 0 } },
      [1/2, 1/4], [3/4], by norm_num, ?_⟩
    have h1 : plateSlideStep
        (fun x => if x = 157/200 then 7/10 else if x = 157/100 then 1 else 0)
        (157/50) (1/2)
        { translation := plateSpawnTranslation,
          slide := { active := true, timer := 0 } } =
        { translation := ⟨-3/2, 383/400, 0⟩,
          slide := { active := true, timer := 1/2 } } := by
      norm_num [plateSlideStep, rclamp, slide_duration, slide_end,
        plateSpawnTranslation, Vec3q.lerp]
    have h2 : plateSlideStep
        (fun x => if x = 157/200 then 7/10 else if x = 157/100 then 1 else 0)
        (157/50) (1/4)
        { translation := (⟨-3/2, 383/400, 0⟩ : Vec3q),
          slide := { active := true, timer := 1/2 } } =
        { translation := ⟨-3/2, 383/400, 0⟩,
          slide := { active := true, timer := 3/4 } } := by
      norm_num [plateSlideStep, rclamp, slide_duration, slide_end, Vec3q.lerp]
    have h3 : plateSlideStep
        (fun x => if x = 157/200 then 7/10 else if x = 157/100 then 1 else 0)
        (157/50) (3/4)
        { translation := plateSpawnTranslation,
          slide := { active := true, timer := 0 } } =
        { translation := plateSpawnTranslation,
          slide := { active := true, timer := 3/4 } } := by
      norm_num [plateSlideStep, rclamp, slide_duration, slide_end,
        plateSpawnTranslation, Vec3q.lerp]
    simp only [plateRun, List.foldl_cons, List.foldl_nil, h1, h2, h3]
    simp [plateSpawnTranslation]
    norm_num

/-- Claim C4: with the source's constants, an advance on which the flip
timer lands exactly on `up_time` puts the donut's vertical position at
exactly `1.0 + jump_height` (the hover branch), and the advance on which
the timer reaches `total_time` writes the identity rotation and clears
`active`. -/
theorem C4_flip_peak_and_completion :
    (∀ (sinq : ℚ → ℚ) (piq dt : ℚ) (d : DonutEnt),
        d.anim.active = true → d.anim.timer + dt = up_time →
        (donutFlipAdvance sinq piq dt d).y = 1 + jump_height) ∧
    (∀ (sinq : ℚ → ℚ) (piq dt : ℚ) (d : DonutEnt),
        d.anim.active = true → total_time ≤ d.anim.timer + dt →
        (donutFlipAdvance sinq piq dt d).rot = QuatQ.ident ∧
        (donutFlipAdvance sinq piq dt d).anim.active = false) := by
  have hut : up_time = 19/40 := by
    norm_num [up_time, flip_duration, hover_time]
  have hht : hover_time = 1/4 := rfl
  have htt : total_time = 6/5 := by
    norm_num [total_time, up_time, down_time, flip_duration, hover_time]
  constructor
  · intro sinq piq dt d hact ht
    have h1 : ¬ (d.anim.timer + dt < up_time) := by rw [ht]; exact lt_irrefl _
    have h2 : d.anim.timer + dt < up_time + hover_time := by
      rw [ht, hut, hht]; norm_num
    simp only [donutFlipAdvance, hact, if_true, h1, h2, if_false]
  · intro sinq piq dt d hact ht
    rw [htt] at ht
    have h1 : ¬ (d.anim.timer + dt < up_time) := by rw [hut]; linarith
    have h2 : ¬ (d.anim.timer + dt < up_time + hover_time) := by
      rw [hut, hht]; linarith
    have h3 : ¬ (d.anim.timer + dt < total_time) := by rw [htt]; linarith
    simp only [donutFlipAdvance, hact, if_true, h1, h2, h3, if_false]
    exact ⟨trivial, trivial⟩

/-- A concrete click ray aimed straight down the negative z-axis at the
origin from `(0, 0, 5)`. -/
def ray0 : Rayq := ⟨⟨0, 0, 5⟩, ⟨0, 0, -1⟩⟩

/-- A concrete click environment in which every lookup succeeds and the
ray construction yields `ray0`. -/
def env0 : ClickEnv := ⟨true, some ⟨some (0, 0)⟩, some ⟨fun _ => some ray0⟩⟩

lemma env0_clickRay : env0.clickRay = some ray0 := rfl

lemma ray0_hit_radius_one : sphereHit ray0 ⟨0, 0, 0⟩ 1 = true := by
  simp [sphereHit, ray0]

lemma ray0_hit_radius_half : sphereHit ray0 ⟨0, 0, 0⟩ (1/2) = true := by
  simp [sphereHit, ray0]

/-- A plate at its spawn pose with an idle slide. -/
def plate0 : PlateEnt := ⟨plateSpawnTranslation, ⟨false, 0⟩⟩

/-- The donut at spawn with an idle flip, plus one plate. -/
def donutIdleW : DFWorld :=
  ⟨⟨donutSpawnTranslation, 0, QuatQ.ident, ⟨false, 0⟩⟩, [plate0]⟩

/-- The donut mid-flip (`active = true`, `timer = 1/2`), plus one plate. -/
def donutActiveW : DFWorld :=
  ⟨⟨donutSpawnTranslation, 0, QuatQ.ident, ⟨true, 1/2⟩⟩, [plate0]⟩

/-- Witness for `C4_flip_peak_and_completion`: a fresh flip advanced by
exactly `up_time` sits at the peak, and advanced by 2 s (past `total_time`)
ends with the identity rotation and `active = false`. -/
theorem C4_flip_peak_and_completion_witness :
    (donutFlipAdvance (fun _ => 0) 0 up_time
        ⟨donutSpawnTranslation, 0, QuatQ.ident, ⟨true, 0⟩⟩).y =
      1 + jump_height ∧
    (donutFlipAdvance (fun _ => 0) 0 2
        ⟨donutSpawnTranslation, 0, QuatQ.ident, ⟨true, 0⟩⟩).rot = QuatQ.ident ∧
    (donutFlipAdvance (fun _ => 0) 0 2
        ⟨donutSpawnTranslation, 0, QuatQ.ident, ⟨true, 0⟩⟩).anim.active = false :=
  ⟨C4_flip_peak_and_completion.1 (fun _ => 0) 0 up_time _ rfl (by simp),
    (C4_flip_peak_and_completion.2 (fun _ => 0) 0 2 _ rfl
      (by norm_num [total_time, up_time, down_time, flip_duration, hover_time])).1,
    (C4_flip_peak_and_completion.2 (fun _ => 0) 0 2 _ rfl
      (by norm_num [total_time, up_time, down_time, flip_duration, hover_time])).2⟩

/-- Claim C6: a click that hits the donut activates the flip only when it
is not already active (a hit mid-flip changes nothing), while a click that
hits the jiggle sphere restarts the jiggle unconditionally, whatever its
current state. -/
theorem C6_retrigger_policy :
    (∀ (env : ClickEnv) (r : Rayq) (w : DFWorld),
        env.justPressed = true → env.clickRay = some r →
        sphereHit r w.donut.center 1 = true → w.donut.anim.active = true →
        donutFlipClick env w = w) ∧
    (∀ (env : ClickEnv) (r : Rayq) (w : DFWorld),
        env.justPressed = true → env.clickRay = some r →
        sphereHit r w.donut.center 1 = true → w.donut.anim.active = false →
        (donutFlipClick env w).donut.anim = { active := true, timer := 0 }) ∧
    (∀ (env : ClickEnv) (r : Rayq) (c : Vec3q) (a : AnimState),
        env.justPressed = true → env.clickRay = some r →
        sphereHit r c (1/2) = true →
        jiggleOnClick env [{ center := c, jiggle := a }] =
          [{ center := c, jiggle := { active := true, timer := 0 } }]) := by
  refine ⟨?_, ?_, ?_⟩
  · intro env r w hjp hray hhit hact
    simp [donutFlipClick, hjp, hray, hhit, hact]
  · intro env r w hjp hray hhit hact
    simp [donutFlipClick, hjp, hray, hhit, hact]
  · intro env r c a hjp hray hhit
    simp only [jiggleOnClick, hjp, if_true, hray, List.map_cons, List.map_nil,
      hhit]

/-- Witness for `C6_retrigger_policy`, at the concrete hitting click
`env0`/`ray0`. -/
theorem C6_retrigger_policy_witness :
    donutFlipClick env0 donutActiveW = donutActiveW ∧
    (donutFlipClick env0 donutIdleW).donut.anim =
      { active := true, timer := 0 } ∧
    jiggleOnClick env0
        [{ center := ⟨0, 0, 0⟩, jiggle := { active := true, timer := 3 } }] =
      [{ center := ⟨0, 0, 0⟩, jiggle := { active := true, timer := 0 } }] :=
  ⟨C6_retrigger_policy.1 env0 ray0 donutActiveW rfl rfl ray0_hit_radius_one rfl,
    C6_retrigger_policy.2.1 env0 ray0 donutIdleW rfl rfl ray0_hit_radius_one rfl,
    C6_retrigger_policy.2.2 env0 ray0 ⟨0, 0, 0⟩ ⟨true, 3⟩ rfl rfl
      ray0_hit_radius_half⟩

/-- Claim C7: on a click frame where the window, the cursor position, the
camera, or the viewport-to-world ray fails to resolve, both click handlers
leave every animation component untouched (and, being total functions,
signal no error). -/
theorem C7_click_absence_noop :
    ∀ (env : ClickEnv) (w : DFWorld) (spheres : List SphereEnt),
      env.clickRay = none →
      donutFlipClick env w = w ∧ jiggleOnClick env spheres = spheres := by
  intro env w spheres h
  constructor <;> simp [donutFlipClick, jiggleOnClick, h]

/-- Witness for `C7_click_absence_noop`: a click with no primary window. -/
theorem C7_click_absence_noop_witness :
    ClickEnv.clickRay ⟨true, none, none⟩ = none ∧
    donutFlipClick ⟨true, none, none⟩ donutIdleW = donutIdleW ∧
    jiggleOnClick ⟨true, none, none⟩
        [{ center := ⟨0, 0, 0⟩, jiggle := { active := false, timer := 0 } }] =
      [{ center := ⟨0, 0, 0⟩, jiggle := { active := false, timer := 0 } }] :=
  ⟨rfl,
    (C7_click_absence_noop ⟨true, none, none⟩ donutIdleW
      [{ center := ⟨0, 0, 0⟩, jiggle := { active := false, timer := 0 } }]
      rfl).1,
    (C7_click_absence_noop ⟨true, none, none⟩ donutIdleW
      [{ center := ⟨0, 0, 0⟩, jiggle := { active := false, timer := 0 } }]
      rfl).2⟩

/-- Claim C8: a single hitting click on an inactive donut activates the
flip and every plate's slide in the same frame (each `active = true`,
`timer = 0`); on later frames the flip system writes only the donut (plates
unchanged) and the slide system writes only the plates (donut unchanged). -/
theorem C8_one_click_two_curves :
    (∀ (env : ClickEnv) (r : Rayq) (w : DFWorld),
        env.justPressed = true → env.clickRay = some r →
        sphereHit r w.donut.center 1 = true → w.donut.anim.active = false →
        (donutFlipClick env w).donut.anim = { active := true, timer := 0 } ∧
        (donutFlipClick env w).plates = w.plates.map fun p =>
          { p with slide := { active := true, timer := 0 } }) ∧
    (∀ (sinq : ℚ → ℚ) (piq dt : ℚ) (w : DFWorld),
        (donutFlipAnimPhase sinq piq dt w).plates = w.plates) ∧
    (∀ (sinq : ℚ → ℚ) (piq dt : ℚ) (w : DFWorld),
        (plateSlideSystem sinq piq dt w).donut = w.donut) := by
  refine ⟨?_, ?_, ?_⟩
  · intro env r w hjp hray hhit hact
    constructor <;> simp [donutFlipClick, hjp, hray, hhit, hact]
  · intro sinq piq dt w
    simp [donutFlipAnimPhase]
  · intro sinq piq dt w
    simp [plateSlideSystem]

/-- Witness for `C8_one_click_two_curves`: the concrete hitting click
`env0` on `donutIdleW`. -/
theorem C8_one_click_two_curves_witness :
    (donutFlipClick env0 donutIdleW).donut.anim =
      { active := true, timer := 0 } ∧
    (donutFlipClick env0 donutIdleW).plates = donutIdleW.plates.map fun p =>
      { p with slide := { active := true, timer := 0 } } :=
  C8_one_click_two_curves.1 env0 ray0 donutIdleW rfl rfl ray0_hit_radius_one rfl

/-- Claim C10: the completing flip advance writes `y = 1.2` exactly, while
the descent formula evaluated at full progress (given `sin(pi/2) = 1`)
yields 1.0 and the donut spawns at `y = 0.0`; the post-flip rest height
1.2 equals neither. -/
theorem C10_rest_height_mismatch :
    (∀ (sinq : ℚ → ℚ) (piq dt : ℚ) (d : DonutEnt),
        d.anim.active = true → total_time ≤ d.anim.timer + dt →
        (donutFlipAdvance sinq piq dt d).y = 6/5) ∧
    (∀ (sinq : ℚ → ℚ) (piq : ℚ),
        sinq (piq / 2) = 1 → flipDescendY sinq piq 1 = 1) ∧
    donutSpawnTranslation.y = 0 ∧ (6/5 : ℚ) ≠ 1 ∧ (6/5 : ℚ) ≠ 0 := by
  have hut : up_time = 19/40 := by
    norm_num [up_time, flip_duration, hover_time]
  have htt : total_time = 6/5 := by
    norm_num [total_time, up_time, down_time, flip_duration, hover_time]
  have hht : hover_time = 1/4 := rfl
  refine ⟨?_, ?_, rfl, by norm_num, by norm_num⟩
  · intro sinq piq dt d hact ht
    rw [htt] at ht
    have h1 : ¬ (d.anim.timer + dt < up_time) := by rw [hut]; linarith
    have h2 : ¬ (d.anim.timer + dt < up_time + hover_time) := by
      rw [hut, hht]; linarith
    have h3 : ¬ (d.anim.timer + dt < total_time) := by rw [htt]; linarith
    simp only [donutFlipAdvance, hact, if_true, h1, h2, h3, if_false]
  · intro sinq piq hsin
    simp [flipDescendY, jump_height, one_mul, hsin]

/-- Witness for `C10_rest_height_mismatch`: a fresh flip advanced by 2 s
rests at `y = 6/5`, and the descent formula at full progress is 1 for a
sine model with value 1 at its (only) queried point. -/
theorem C10_rest_height_mismatch_witness :
    (donutFlipAdvance (fun _ => 0) 0 2
        ⟨donutSpawnTranslation, 0, QuatQ.ident, ⟨true, 0⟩⟩).y = 6/5 ∧
    flipDescendY (fun _ => 1) 0 1 = 1 :=
  ⟨C10_rest_height_mismatch.1 (fun _ => 0) 0 2 _ rfl
      (by norm_num [total_time, up_time, down_time, flip_duration, hover_time]),
    C10_rest_height_mismatch.2.1 (fun _ => 1) 0 rfl⟩

/-- The `ElectronTrace` push-then-evict step of `orbit_electron_system`
(split_screen/src/main.rs lines 169-172): `points.push(pos); if points.len()
> max_points { points.remove(0); }`. -/
def orbitTracePush (maxPoints : ℕ) (points : List Vec3q) (pos : Vec3q) :
    List Vec3q :=
  let pts := points ++ [pos]
  if pts.length > maxPoints then pts.eraseIdx 0 else pts

/-- Iterated frames of the trace update, one push per element of `ps`. -/
def orbitTraceRun (maxPoints : ℕ) (ps : List Vec3q) (init : List Vec3q) :
    List Vec3q :=
  ps.foldl (orbitTracePush maxPoints) init

lemma eraseIdx_zero_eq_tail (l : List Vec3q) : l.eraseIdx 0 = l.tail := by
  cases l <;> rfl

lemma orbitTracePush_length_le (m : ℕ) (buf : List Vec3q) (p : Vec3q)
    (h : buf.length ≤ m) : (orbitTracePush m buf p).length ≤ m := by
  by_cases hfull : (buf ++ [p]).length > m
  · simp only [orbitTracePush, if_pos hfull]
    rw [eraseIdx_zero_eq_tail, List.length_tail]
    simp only [List.length_append, List.length_cons, List.length_nil]
    omega
  · simp only [orbitTracePush, if_neg hfull]
    simp only [List.length_append, List.length_cons, List.length_nil] at hfull ⊢
    omega

lemma orbitTraceRun_eq_drop (m : ℕ) :
    ∀ (ps buf : List Vec3q), buf.length ≤ m →
      orbitTraceRun m ps buf = (buf ++ ps).drop (buf.length + ps.length - m) := by
  intro ps
  induction ps with
  | nil =>
    intro buf h
    simp [orbitTraceRun, Nat.sub_eq_zero_of_le h]
  | cons p rest ih =>
    intro buf h
    have hstep : orbitTraceRun m (p :: rest) buf =
        orbitTraceRun m rest (orbitTracePush m buf p) := rfl
    rw [hstep]
    by_cases hfull : (buf ++ [p]).length > m
    · have hlen : buf.length = m := by
        simp only [List.length_append, List.length_cons, List.length_nil] at hfull
        omega
      obtain ⟨a, l2, hb⟩ := List.exists_cons_of_ne_nil
        (show buf ++ [p] ≠ [] by simp)
      have hl2 : l2.length = m := by
        have := congrArg List.length hb
        simp only [List.length_append, List.length_cons, List.length_nil] at this
        omega
      have hpush : orbitTracePush m buf p = l2 := by
        simp only [orbitTracePush]
        rw [if_pos hfull, hb, eraseIdx_zero_eq_tail, List.tail_cons]
      rw [hpush, ih l2 (le_of_eq hl2), hl2]
      have happ : buf ++ p :: rest = a :: (l2 ++ rest) := by
        rw [show buf ++ p :: rest = (buf ++ [p]) ++ rest by simp, hb]
        rfl
      rw [happ]
      have hidx : buf.length + (p :: rest).length - m = rest.length + 1 := by
        simp only [List.length_cons]
        omega
      rw [hidx]
      have hidx2 : m + rest.length - m = rest.length := by omega
      rw [hidx2, List.drop_succ_cons]
    · have hpush : orbitTracePush m buf p = buf ++ [p] := by
        simp only [orbitTracePush]
        rw [if_neg hfull]
      have hle : (buf ++ [p]).length ≤ m := le_of_not_lt hfull
      rw [hpush, ih (buf ++ [p]) hle]
      have happ : (buf ++ [p]) ++ rest = buf ++ p :: rest := by simp
      rw [happ]
      have hidx : (buf ++ [p]).length + rest.length - m =
          buf.length + (p :: rest).length - m := by
        simp only [List.length_append, List.length_cons, List.length_nil]
        omega
      rw [hidx]

/-- Claim C5: a push-then-evict step never leaves the trace buffer above
`max_points`, and from an empty buffer, inserting `max_points + k`
positions leaves exactly the most recent `max_points` of them, oldest
first (each insertion past capacity evicting exactly one oldest entry). -/
theorem C5_trace_fifo :
    (∀ (m : ℕ) (buf : List Vec3q) (p : Vec3q),
        buf.length ≤ m → (orbitTracePush m buf p).length ≤ m) ∧
    (∀ (m : ℕ) (ps : List Vec3q), m ≤ ps.length →
        orbitTraceRun m ps [] = ps.drop (ps.length - m) ∧
        (orbitTraceRun m ps []).length = m) := by
  refine ⟨orbitTracePush_length_le, ?_⟩
  intro m ps h
  have hrun := orbitTraceRun_eq_drop m ps [] (by simp)
  simp only [List.nil_append, List.length_nil, Nat.zero_add] at hrun
  refine ⟨hrun, ?_⟩
  rw [hrun, List.length_drop]
  omega

/-- Witness for `C5_trace_fifo`: capacity 1 with one buffered point, and
capacity 2 fed three points (the first is evicted). -/
theorem C5_trace_fifo_witness :
    (([⟨1, 2, 3⟩] : List Vec3q).length ≤ 1 ∧
      (orbitTracePush 1 [⟨1, 2, 3⟩] ⟨4, 5, 6⟩).length ≤ 1) ∧
    (2 ≤ ([⟨1, 0, 0⟩, ⟨0, 1, 0⟩, ⟨0, 0, 1⟩] : List Vec3q).length ∧
      orbitTraceRun 2 [⟨1, 0, 0⟩, ⟨0, 1, 0⟩, ⟨0, 0, 1⟩] [] =
        ([⟨1, 0, 0⟩, ⟨0, 1, 0⟩, ⟨0, 0, 1⟩] : List Vec3q).drop
          (([⟨1, 0, 0⟩, ⟨0, 1, 0⟩, ⟨0, 0, 1⟩] : List Vec3q).length - 2) ∧
      (orbitTraceRun 2 [⟨1, 0, 0⟩, ⟨0, 1, 0⟩, ⟨0, 0, 1⟩] []).length = 2) :=
  ⟨⟨by simp, C5_trace_fifo.1 1 [⟨1, 2, 3⟩] ⟨4, 5, 6⟩ (by simp)⟩,
    ⟨by simp, (C5_trace_fifo.2 2 _ (by simp)).1,
      (C5_trace_fifo.2 2 _ (by simp)).2⟩⟩

/-- Arrow-key state read by `fly_camera`. -/
structure ArrowKeys where
  left : Bool
  right : Bool
  up : Bool
  down : Bool

/-- The `FlyCamera` component: yaw and pitch in radians. -/
structure FlyCam where
  yaw : ℚ
  pitch : ℚ
deriving DecidableEq

/-- Result of the rotation half of one `fly_camera` frame: the updated
`FlyCamera` component plus the yaw/pitch axis angles written into
`transform.rotation` (as `from_axis_angle(Y, yaw) * from_axis_angle(X,
pitch)`). -/
structure FlyCamRot where
  cam : FlyCam
  rotYawAngle : ℚ
  rotPitchAngle : ℚ
deriving DecidableEq

/-- `rot_speed` (jiggle/src/main.rs line 138): 1.5 radians per second. -/
def rot_speed : ℚ := 3/2

/-- The yaw/pitch update of `fly_camera` (jiggle/src/main.rs lines 140-160,
identically in donut_animation and split_screen): arrow keys integrate yaw
and pitch by `rot_speed * delta`, pitch is clamped to `[-1.54, 1.54]`, and
the clamped values become the rotation written to the transform. The
WASD/QE translation part of the system neither reads nor writes `pitch`. -/
def flyCameraRotStep (keys : ArrowKeys) (dt : ℚ) (c : FlyCam) : FlyCamRot :=
  let yaw1 := if keys.left then c.yaw + rot_speed * dt else c.yaw
  let yaw2 := if keys.right then yaw1 - rot_speed * dt else yaw1
  let p1 := if keys.up then c.pitch + rot_speed * dt else c.pitch
  let p2 := if keys.down then p1 - rot_speed * dt else p1
  let pitch := rclamp p2 (-(77/50)) (77/50)
  { cam := { yaw := yaw2, pitch := pitch },
    rotYawAngle := yaw2, rotPitchAngle := pitch }

lemma rclamp_bounds (v lo hi : ℚ) (h : lo ≤ hi) :
    lo ≤ rclamp v lo hi ∧ rclamp v lo hi ≤ hi := by
  unfold rclamp
  split_ifs with h1 h2
  · exact ⟨le_refl _, h⟩
  · exact ⟨h, le_refl _⟩
  · exact ⟨le_of_not_lt h1, le_of_not_lt h2⟩

/-- Claim C9: after any `fly_camera` frame — any key combination, any
nonnegative delta — the stored pitch lies in `[-1.54, 1.54]`, and the pitch
angle written into the camera rotation is that same clamped value. -/
theorem C9_pitch_clamped :
    ∀ (keys : ArrowKeys) (dt : ℚ) (c : FlyCam), 0 ≤ dt →
      -(77/50) ≤ (flyCameraRotStep keys dt c).cam.pitch ∧
      (flyCameraRotStep keys dt c).cam.pitch ≤ 77/50 ∧
      (flyCameraRotStep keys dt c).rotPitchAngle =
        (flyCameraRotStep keys dt c).cam.pitch := by
  intro keys dt c _
  refine ⟨?_, ?_, rfl⟩
  · exact (rclamp_bounds _ _ _ (by norm_num)).1
  · exact (rclamp_bounds _ _ _ (by norm_num)).2

/-- Witness for `C9_pitch_clamped`: pitch-up held for a 1 s frame from an
out-of-range pitch of 3 radians. -/
theorem C9_pitch_clamped_witness :
    (0 : ℚ) ≤ 1 ∧
    (-(77/50) ≤ (flyCameraRotStep ⟨false, false, true, false⟩ 1 ⟨0, 3⟩).cam.pitch ∧
      (flyCameraRotStep ⟨false, false, true, false⟩ 1 ⟨0, 3⟩).cam.pitch ≤ 77/50 ∧
      (flyCameraRotStep ⟨false, false, true, false⟩ 1 ⟨0, 3⟩).rotPitchAngle =
        (flyCameraRotStep ⟨false, false, true, false⟩ 1 ⟨0, 3⟩).cam.pitch) :=
  ⟨by norm_num, C9_pitch_clamped ⟨false, false, true, false⟩ 1 ⟨0, 3⟩ (by norm_num)⟩

end BlogSpec
